import Mathlib

/-!
Shallow embedding of the DigiSign API client (src/api.js of digisign-mcp).

The client is a thin layer over `fetch`: every network interaction is
modelled by passing the observed HTTP response in as an explicit argument,
and every function returns the request data it would hand to `fetch`
together with its result.  Time (`Date.now() / 1000`) is modelled as a
rational number of epoch seconds.  JavaScript truthiness on optional
string / number arguments is modelled explicitly (`none` for `undefined`,
an empty string and the number 0 are falsy).
-/

/-- A JavaScript value stored in a request-body object: the bodies built by
this client only ever hold strings, numbers, or `undefined` (a field
assigned from an absent optional parameter). -/
inductive JVal where
  | str : String → JVal
  | num : Int → JVal
  | undef : JVal
deriving DecidableEq, Repr

/-- A request body object, as an insertion-ordered list of key/value pairs
(mirroring a JavaScript object literal plus subsequent assignments). -/
abbrev JsBody := List (String × JVal)

/-- Field lookup in a body object. -/
def getKey (body : JsBody) (k : String) : Option JVal :=
  (List.find? (fun kv => kv.1 == k) body).map (fun kv => kv.2)

/-- JavaScript truthiness of an optional string variable:
`undefined` and the empty string are falsy. -/
def truthyOptStr : Option String → Bool
  | none => false
  | some s => s != ""

/-- JavaScript truthiness of an optional number variable:
`undefined` and 0 are falsy. -/
def truthyOptNum : Option Int → Bool
  | none => false
  | some n => n != 0

/-- Models the JavaScript or-else `v || d` for an optional string `v`
(used for the tag type defaulting). -/
def jsOrElse (v : Option String) (d : String) : String :=
  match v with
  | none => d
  | some s => if s == "" then d else s

/-- Template-literal interpolation of a possibly-undefined string:
JavaScript renders `undefined` as the text "undefined". -/
def optToJsStr : Option String → String
  | none => "undefined"
  | some s => s

/-- The token cache: module-level `let cachedToken = null; let tokenExpiry = 0;`
in api.js.  `cachedToken = none` models `null`. -/
structure TokenCache where
  cachedToken : Option String
  tokenExpiry : ℚ
deriving DecidableEq, Repr

/-- The initial cache state of a fresh process. -/
def initialCache : TokenCache := { cachedToken := none, tokenExpiry := 0 }

/-- The body of the POST to `/api/auth-token`:
`JSON.stringify({ accessKey, secretKey })`. -/
structure AuthRequest where
  accessKey : String
  secretKey : String
deriving DecidableEq, Repr

/-- The answer of the environment to the token-exchange request: `ok` and `status`
from the fetch response, `bodyText` what `res.text()` yields, and
`token` / `exp` the fields parsed from the JSON body on the success path. -/
structure AuthResponse where
  ok : Bool
  status : Nat
  bodyText : String
  token : String
  exp : ℚ
deriving DecidableEq, Repr

/-- Outcome of `getToken`: a cache hit, a successful exchange, or the thrown
`Auth failed (status): body` error. -/
inductive GetTokenResult where
  | hit : String → GetTokenResult
  | success : String → GetTokenResult
  | failure : Nat → String → GetTokenResult
deriving DecidableEq, Repr

/-- `getToken(accessKey, secretKey)` from api.js.  Returns the new cache
state, the result, and the list of network requests issued (empty on a
cache hit, a single auth-token exchange otherwise).  `now` models
`Date.now() / 1000` and `resp` the response the exchange would receive. -/
def getToken (accessKey secretKey : String) (st : TokenCache) (now : ℚ)
    (resp : AuthResponse) : TokenCache × GetTokenResult × List AuthRequest :=
  if truthyOptStr st.cachedToken = true ∧ now < st.tokenExpiry - 60 then
    (st, .hit (st.cachedToken.getD ""), [])
  else if resp.ok then
    ({ cachedToken := some resp.token, tokenExpiry := resp.exp },
      .success resp.token, [{ accessKey := accessKey, secretKey := secretKey }])
  else
    (st, .failure resp.status resp.bodyText,
      [{ accessKey := accessKey, secretKey := secretKey }])

/-- Whether `needle` occurs as a contiguous run inside the character list:
the recursion behind `String.prototype.includes`. -/
def charsIncludes (needle : List Char) : List Char → Bool
  | [] => needle.isEmpty
  | c :: rest => needle.isPrefixOf (c :: rest) || charsIncludes needle rest

/-- `hay.includes(needle)` on strings. -/
def strIncludes (hay needle : String) : Bool :=
  charsIncludes needle.data hay.data

/-- `res.ok` of the fetch API: status in the inclusive range 200–299. -/
def httpOk (status : Nat) : Bool :=
  decide (200 ≤ status) && decide (status ≤ 299)

/-- An HTTP response as `apiCall` observes it: the status, the value of the
content-type header (the empty string when the header is absent, as the
source coalesces a missing header to the empty string), the raw bytes the
arrayBuffer call would yield, the raw text of the body, and the outcome of
the json call (`none` when the body is not valid JSON, in which case the
json call rejects). -/
structure HttpResponse where
  status : Nat
  contentType : String
  bodyBytes : List Nat
  bodyText : String
  jsonBody : Option JVal
deriving DecidableEq, Repr

/-- The value an `apiCall` invocation settles to:
`binary` is the `{ _binary: true, contentType, buffer }` object,
`noContent` the `{ success: true }` object returned on a 204,
`json` the parsed body returned on a 2xx,
`apiError` the thrown `API error (status): body` error, and
`jsonRejected` the rejection of `res.json()` on a body that is not valid
JSON (a SyntaxError that propagates instead of an API error). -/
inductive ApiResult where
  | binary : String → List Nat → ApiResult
  | noContent : ApiResult
  | json : JVal → ApiResult
  | apiError : Nat → JVal → ApiResult
  | jsonRejected : ApiResult
deriving DecidableEq, Repr

/-- Whether a result is one of the success shapes (binary, 204, parsed JSON). -/
def isSuccessResult : ApiResult → Bool
  | .binary _ _ => true
  | .noContent => true
  | .json _ => true
  | .apiError _ _ => false
  | .jsonRejected => false

/-- The condition of the binary branch of `apiCall`: the content type
contains application/pdf or contains application/zip. -/
def isBinaryContentType (ct : String) : Bool :=
  strIncludes ct "application/pdf" || strIncludes ct "application/zip"

/-- The response dispatch of `apiCall` in api.js (the part after `fetch`
resolves): binary content types first, then 204, then JSON parsing followed
by the `res.ok` check. -/
def apiCall (res : HttpResponse) : ApiResult :=
  if isBinaryContentType res.contentType then
    .binary res.contentType res.bodyBytes
  else if res.status == 204 then
    .noContent
  else
    match res.jsonBody with
    | none => .jsonRejected
    | some data =>
      if httpOk res.status then .json data
      else .apiError res.status data

/-- The request an operation hands to `apiCall` / `fetch`:
method, path (relative to the base URL, query string included), optional
JSON body, and the multipart flag. -/
structure ApiRequest where
  method : String
  path : String
  body : Option JsBody
  isFormData : Bool
deriving DecidableEq, Repr

/-- Lower-case hexadecimal digit, as `encodeURIComponent`-style escapes use. -/
def hexDigit (n : Nat) : Char :=
  if n < 10 then Char.ofNat (48 + n) else Char.ofNat (55 + n)

/-- UTF-8 byte sequence of a character. -/
def utf8Bytes (c : Char) : List Nat :=
  let n := c.toNat
  if n < 128 then [n]
  else if n < 2048 then [192 + n / 64, 128 + n % 64]
  else if n < 65536 then [224 + n / 4096, 128 + (n / 64) % 64, 128 + n % 64]
  else [240 + n / 262144, 128 + (n / 4096) % 64, 128 + (n / 64) % 64, 128 + n % 64]

/-- One character of `application/x-www-form-urlencoded` output, as
`URLSearchParams.toString()` produces: alphanumerics and `*-._` unescaped,
space as `+`, everything else percent-escaped byte by byte. -/
def formEncodeChar (c : Char) : String :=
  if c.isAlphanum || c = '*' || c = '-' || c = '.' || c = '_' then
    String.singleton c
  else if c = ' ' then "+"
  else
    String.join ((utf8Bytes c).map (fun b =>
      String.mk ['%', hexDigit (b / 16), hexDigit (b % 16)]))

/-- `application/x-www-form-urlencoded` escaping of a full string. -/
def formEncode (s : String) : String :=
  String.join (s.data.map formEncodeChar)

/-- `URLSearchParams.toString()`: the set pairs joined as `k=v` with `&`. -/
def queryToString (q : List (String × String)) : String :=
  String.intercalate "&" (q.map (fun kv => formEncode kv.1 ++ "=" ++ formEncode kv.2))

/-- The filters accepted by `listEnvelopes` (each `undefined` when the caller
omits it). -/
structure ListEnvelopesParams where
  status : Option String
  page : Option Int
  itemsPerPage : Option Int
deriving DecidableEq, Repr

/-- The `URLSearchParams` contents built by `listEnvelopes`: each filter is
set exactly when its value is truthy (the three keys are distinct, so the
successive `query.set` calls are appends).  Numbers are coerced to strings
as `URLSearchParams.set` does. -/
def listEnvelopesQuery (p : ListEnvelopesParams) : List (String × String) :=
  (if truthyOptStr p.status then [("status", p.status.getD "")] else [])
    ++ (if truthyOptNum p.page then [("page", toString (p.page.getD 0))] else [])
    ++ (if truthyOptNum p.itemsPerPage then
          [("itemsPerPage", toString (p.itemsPerPage.getD 0))] else [])

/-- `listEnvelopes(creds, params)`: GET on `/api/envelopes` with the query
string appended, prefixed by a question mark, only when non-empty. -/
def listEnvelopes (p : ListEnvelopesParams) : ApiRequest :=
  let qs := queryToString (listEnvelopesQuery p)
  { method := "GET"
    path := "/api/envelopes" ++ (if qs == "" then "" else "?" ++ qs)
    body := none
    isFormData := false }

/-- Arguments of `createEnvelope` (the four optional fields are `undefined`
when the caller omits them). -/
structure CreateEnvelopeParams where
  name : String
  emailBody : Option String
  emailBodyCompleted : Option String
  senderName : Option String
  senderEmail : Option String
deriving DecidableEq, Repr

/-- The body object built by `createEnvelope`: `{ name }` plus each optional
field assigned only when truthy. -/
def createEnvelopeBody (p : CreateEnvelopeParams) : JsBody :=
  [("name", .str p.name)]
    ++ (if truthyOptStr p.emailBody then
          [("emailBody", .str (p.emailBody.getD ""))] else [])
    ++ (if truthyOptStr p.emailBodyCompleted then
          [("emailBodyCompleted", .str (p.emailBodyCompleted.getD ""))] else [])
    ++ (if truthyOptStr p.senderName then
          [("senderName", .str (p.senderName.getD ""))] else [])
    ++ (if truthyOptStr p.senderEmail then
          [("senderEmail", .str (p.senderEmail.getD ""))] else [])

/-- `createEnvelope(creds, params)`: POST `/api/envelopes` with the body above. -/
def createEnvelope (p : CreateEnvelopeParams) : ApiRequest :=
  { method := "POST"
    path := "/api/envelopes"
    body := some (createEnvelopeBody p)
    isFormData := false }

/-- Arguments of `addRecipient` (`mobile` is `undefined` when omitted). -/
structure AddRecipientParams where
  role : String
  name : String
  email : String
  mobile : Option String
deriving DecidableEq, Repr

/-- The body object built by `addRecipient`: `{ role, name, email }` plus
`mobile` assigned only when truthy. -/
def addRecipientBody (r : AddRecipientParams) : JsBody :=
  [("role", .str r.role), ("name", .str r.name), ("email", .str r.email)]
    ++ (if truthyOptStr r.mobile then [("mobile", .str (r.mobile.getD ""))] else [])

/-- `addRecipient(creds, envelopeId, recipient)`. -/
def addRecipient (envelopeId : String) (r : AddRecipientParams) : ApiRequest :=
  { method := "POST"
    path := "/api/envelopes/" ++ (envelopeId ++ "/recipients")
    body := some (addRecipientBody r)
    isFormData := false }

/-- Arguments of `addTag` (every optional field is `undefined` when omitted;
`page`, `xPosition`, `yPosition` are JavaScript numbers). -/
structure AddTagParams where
  documentId : Option String
  recipientId : String
  type : Option String
  placeholder : Option String
  page : Option Int
  xPosition : Option Int
  yPosition : Option Int
  positioning : Option String
deriving DecidableEq, Repr

/-- A field assigned directly from an optional number parameter: assigning
`undefined` stores `undefined` in the object (JSON serialization then drops
the key; the object itself still carries it). -/
def numField : Option Int → JVal
  | none => .undef
  | some n => .num n

/-- The body object built by `addTag`: the recipient reference and the tag
type (defaulted to signature when falsy), then either the placeholder branch
(when `placeholder` is truthy) or the coordinate branch.  In the coordinate branch the document reference is
built by template interpolation, so an absent `documentId` renders as the
text "undefined". -/
def addTagBody (envelopeId : String) (p : AddTagParams) : JsBody :=
  [("recipient", .str ("/api/envelopes/" ++ (envelopeId ++ ("/recipients/" ++ p.recipientId)))),
   ("type", .str (jsOrElse p.type "signature"))]
    ++ (if truthyOptStr p.placeholder then
          [("placeholder", .str (p.placeholder.getD ""))]
            ++ (if truthyOptStr p.positioning then
                  [("positioning", .str (p.positioning.getD ""))] else [])
            ++ (if truthyOptStr p.documentId then
                  [("document", .str ("/api/envelopes/" ++ (envelopeId ++ ("/documents/" ++ p.documentId.getD ""))))]
                else [])
        else
          [("document", .str ("/api/envelopes/" ++ (envelopeId ++ ("/documents/" ++ optToJsStr p.documentId)))),
           ("page", numField p.page),
           ("xPosition", numField p.xPosition),
           ("yPosition", numField p.yPosition)])

/-- `addTag(creds, envelopeId, params)`: POST on the tags collection of the
envelope with the body above. -/
def addTag (envelopeId : String) (p : AddTagParams) : ApiRequest :=
  { method := "POST"
    path := "/api/envelopes/" ++ (envelopeId ++ "/tags")
    body := some (addTagBody envelopeId p)
    isFormData := false }

/-- Arguments of `downloadEnvelope`; the JavaScript parameter defaults
(output defaulting to combined, includeLog to true) apply exactly when the
respective argument is `undefined`. -/
structure DownloadParams where
  output : Option String
  includeLog : Option Bool
deriving DecidableEq, Repr

/-- `downloadEnvelope(creds, envelopeId, options)` with defaulted parameters. -/
def downloadEnvelope (envelopeId : String) (p : DownloadParams) : ApiRequest :=
  { method := "GET"
    path := "/api/envelopes/" ++ (envelopeId ++ ("/download?output="
      ++ (p.output.getD "combined" ++ ("&include_log=" ++ toString (p.includeLog.getD true)))))
    body := none
    isFormData := false }

/-- Argument of `getDownloadUrl`; the default output value combined applies
exactly when the argument is `undefined`. -/
structure DownloadUrlParams where
  output : Option String
deriving DecidableEq, Repr

/-- `getDownloadUrl(creds, envelopeId, options)` with defaulted output. -/
def getDownloadUrl (envelopeId : String) (p : DownloadUrlParams) : ApiRequest :=
  { method := "GET"
    path := "/api/envelopes/" ++ (envelopeId ++ ("/download-url?output=" ++ p.output.getD "combined"))
    body := none
    isFormData := false }

theorem getKey_nil (k : String) : getKey [] k = none := rfl

theorem getKey_cons_self (k k2 : String) (v : JVal) (l : List (String × JVal))
    (h : (k2 == k) = true) : getKey ((k2, v) :: l) k = some v := by
  simp [getKey, List.find?_cons, h]

theorem getKey_cons_ne (k k2 : String) (v : JVal) (l : List (String × JVal))
    (h : (k2 == k) = false) : getKey ((k2, v) :: l) k = getKey l k := by
  simp [getKey, List.find?_cons, h]

theorem truthyOptStr_none : truthyOptStr none = false := rfl

/-- C1: on every `getToken` call, if a cached token exists and the current
time is strictly below the cached expiry minus 60 seconds, the cached token
is returned, the cache is unchanged and no network request is issued;
otherwise exactly one exchange request is issued and, on success, the cache
is overwritten with the token and expiry parsed from the response before the
new token is returned.  With a cached token expiring at `now + 3600`, any
call within the next 3540 seconds issues no network call, and a call at
`now + 3541` or later issues exactly one new exchange. -/
theorem C1_getToken_cache_policy (ak sk tok : String) (st : TokenCache) (now : ℚ)
    (resp : AuthResponse) :
    (st.cachedToken = some tok → tok ≠ "" → now < st.tokenExpiry - 60 →
        getToken ak sk st now resp = (st, .hit tok, []))
  ∧ (¬ (truthyOptStr st.cachedToken = true ∧ now < st.tokenExpiry - 60) →
        (getToken ak sk st now resp).2.2 = [{ accessKey := ak, secretKey := sk }]
        ∧ (resp.ok = true →
            getToken ak sk st now resp
              = ({ cachedToken := some resp.token, tokenExpiry := resp.exp },
                  .success resp.token, [{ accessKey := ak, secretKey := sk }])))
  ∧ (tok ≠ "" → ∀ d : ℚ, 0 ≤ d → d < 3540 →
        getToken ak sk ⟨some tok, now + 3600⟩ (now + d) resp
          = (⟨some tok, now + 3600⟩, .hit tok, []))
  ∧ (∀ d : ℚ, 3541 ≤ d →
        ((getToken ak sk ⟨some tok, now + 3600⟩ (now + d) resp).2.2).length = 1) := by
  refine ⟨?_, ?_, ?_, ?_⟩
  · intro hst htok hlt
    rw [getToken, if_pos ⟨by simp [hst, truthyOptStr, htok], hlt⟩]
    simp [hst]
  · intro hmiss
    rw [getToken, if_neg hmiss]
    cases hok : resp.ok <;> simp
  · intro htok d hd hlt
    rw [getToken, if_pos ⟨by simp [truthyOptStr, htok], by push_cast; linarith⟩]
    simp
  · intro d hd
    rw [getToken, if_neg]
    · cases hok : resp.ok <;> simp
    · rintro ⟨-, hlt⟩
      simp only [TokenCache.mk.injEq] at hlt
      linarith

/-- Witness for C1 at a concrete cache hit. -/
theorem C1_getToken_cache_policy_witness :
    getToken "ak" "sk" ⟨some "tok", 4000⟩ 100 ⟨true, 200, "", "t2", 9999⟩
      = (⟨some "tok", 4000⟩, .hit "tok", []) :=
  (C1_getToken_cache_policy "ak" "sk" "tok" ⟨some "tok", 4000⟩ 100
    ⟨true, 200, "", "t2", 9999⟩).1 rfl (by decide) (by norm_num)

/-- C9: when the token exchange answers with a non-success status, `getToken`
fails with the auth error and the cache is left exactly as it was; the
previously cached token and expiry are neither cleared nor overwritten. -/
theorem C9_getToken_failure_preserves_cache (ak sk : String) (st : TokenCache)
    (now : ℚ) (resp : AuthResponse) (hfail : resp.ok = false) :
    (getToken ak sk st now resp).1 = st
    ∧ ((getToken ak sk st now resp).2.2 ≠ [] →
        (getToken ak sk st now resp).2.1 = .failure resp.status resp.bodyText) := by
  rw [getToken]
  split
  · simp
  · rw [if_neg (by simp [hfail])]
    simp

/-- Witness for C9: a failed exchange at an expired cache leaves the old
token and expiry in place. -/
theorem C9_getToken_failure_preserves_cache_witness :
    (getToken "ak" "sk" ⟨some "tok", 4000⟩ 5000 ⟨false, 401, "denied", "", 0⟩).1
        = ⟨some "tok", 4000⟩
    ∧ ((getToken "ak" "sk" ⟨some "tok", 4000⟩ 5000 ⟨false, 401, "denied", "", 0⟩).2.2 ≠ [] →
        (getToken "ak" "sk" ⟨some "tok", 4000⟩ 5000 ⟨false, 401, "denied", "", 0⟩).2.1
          = .failure 401 "denied") :=
  C9_getToken_failure_preserves_cache "ak" "sk" ⟨some "tok", 4000⟩ 5000
    ⟨false, 401, "denied", "", 0⟩ rfl

/-- C10: the token cache is not keyed by the credential pair: while a valid
token is cached, two `getToken` calls with arbitrary different credentials
(and arbitrary would-be exchange responses) return the same result and issue
no network request. -/
theorem C10_getToken_ignores_credentials (a1 s1 a2 s2 tok : String)
    (st : TokenCache) (now : ℚ) (r1 r2 : AuthResponse)
    (hst : st.cachedToken = some tok) (htok : tok ≠ "")
    (hvalid : now < st.tokenExpiry - 60) :
    getToken a1 s1 st now r1 = getToken a2 s2 st now r2
    ∧ (getToken a1 s1 st now r1).2.2 = [] := by
  have hcond : truthyOptStr st.cachedToken = true ∧ now < st.tokenExpiry - 60 :=
    ⟨by simp [hst, truthyOptStr, htok], hvalid⟩
  rw [getToken, getToken, if_pos hcond, if_pos hcond]
  simp

/-- Witness for C10 at two distinct credential pairs. -/
theorem C10_getToken_ignores_credentials_witness :
    getToken "a1" "s1" ⟨some "tok", 4000⟩ 100 ⟨true, 200, "", "x", 1⟩
      = getToken "a2" "s2" ⟨some "tok", 4000⟩ 100 ⟨false, 500, "y", "", 0⟩
    ∧ (getToken "a1" "s1" ⟨some "tok", 4000⟩ 100 ⟨true, 200, "", "x", 1⟩).2.2 = [] :=
  C10_getToken_ignores_credentials "a1" "s1" "a2" "s2" "tok" ⟨some "tok", 4000⟩ 100
    ⟨true, 200, "", "x", 1⟩ ⟨false, 500, "y", "", 0⟩ rfl (by decide) (by norm_num)

/-- C2: `apiCall` dispatches a response in priority order: a PDF or ZIP
content type yields a tagged binary result with the content type and raw
bytes, regardless of status and without consulting the JSON parse; otherwise
a 204 yields the tagged no-payload success, again without consulting the
JSON parse; otherwise the body is parsed as JSON and the parsed value is
returned when the status is in the success range. -/
theorem C2_apiCall_dispatch_order (res : HttpResponse) :
    (isBinaryContentType res.contentType = true →
        apiCall res = .binary res.contentType res.bodyBytes)
  ∧ (isBinaryContentType res.contentType = false → res.status = 204 →
        apiCall res = .noContent)
  ∧ (isBinaryContentType res.contentType = false → res.status ≠ 204 →
        ∀ d, res.jsonBody = some d → httpOk res.status = true →
          apiCall res = .json d) := by
  refine ⟨?_, ?_, ?_⟩
  · intro hbin
    rw [apiCall, if_pos hbin]
  · intro hbin h204
    rw [apiCall, if_neg (by simp [hbin]), if_pos (by simp [h204])]
  · intro hbin h204 d hjson hok
    rw [apiCall, if_neg (by simp [hbin]), if_neg (by simp [h204]), hjson]
    simp [hok]

/-- Witness for C2: a PDF response with a failure status still comes back as
the binary result. -/
theorem C2_apiCall_dispatch_order_witness :
    apiCall ⟨500, "application/pdf", [37, 80, 68, 70], "", none⟩
      = .binary "application/pdf" [37, 80, 68, 70] :=
  (C2_apiCall_dispatch_order ⟨500, "application/pdf", [37, 80, 68, 70], "", none⟩).1 rfl

/-- C3: `addTag` selects the request shape solely from the presence of
`placeholder`.  With `placeholder` set and `page`, `xPosition`, `yPosition`
unset, the body carries `placeholder` (plus `positioning` if given and a
document reference built from `documentId` if given) and omits the three
coordinate keys.  With `placeholder` unset and coordinates set, the body
carries the document reference and the coordinates verbatim and omits
`placeholder` and `positioning`.  In both modes `type` defaults to
"signature" when absent. -/
theorem C3_addTag_mode_selection (envId ph : String) (p : AddTagParams) :
    (p.placeholder = some ph → ph ≠ "" →
      p.page = none → p.xPosition = none → p.yPosition = none →
        getKey (addTagBody envId p) "placeholder" = some (.str ph)
        ∧ getKey (addTagBody envId p) "page" = none
        ∧ getKey (addTagBody envId p) "xPosition" = none
        ∧ getKey (addTagBody envId p) "yPosition" = none
        ∧ (∀ q, p.positioning = some q → q ≠ "" →
            getKey (addTagBody envId p) "positioning" = some (.str q))
        ∧ (∀ doc, p.documentId = some doc → doc ≠ "" →
            getKey (addTagBody envId p) "document"
              = some (.str ("/api/envelopes/" ++ (envId ++ ("/documents/" ++ doc))))))
  ∧ (p.placeholder = none →
      ∀ pg px py : Int, p.page = some pg → p.xPosition = some px → p.yPosition = some py →
        getKey (addTagBody envId p) "document"
          = some (.str ("/api/envelopes/" ++ (envId ++ ("/documents/" ++ optToJsStr p.documentId))))
        ∧ getKey (addTagBody envId p) "page" = some (.num pg)
        ∧ getKey (addTagBody envId p) "xPosition" = some (.num px)
        ∧ getKey (addTagBody envId p) "yPosition" = some (.num py)
        ∧ getKey (addTagBody envId p) "placeholder" = none
        ∧ getKey (addTagBody envId p) "positioning" = none)
  ∧ (p.type = none → getKey (addTagBody envId p) "type" = some (.str "signature")) := by
  obtain ⟨docId, rId, ty, pl, pg, px, py, pos⟩ := p
  refine ⟨?_, ?_, ?_⟩
  · rintro rfl hph rfl rfl rfl
    have hpt : truthyOptStr (some ph) = true := by simp [truthyOptStr, hph]
    refine ⟨?_, ?_, ?_, ?_, ?_, ?_⟩
    · simp [addTagBody, hpt, getKey_cons_self, getKey_cons_ne, getKey_nil, List.cons_append, List.nil_append, List.append_nil]
    · cases hposT : truthyOptStr pos <;> cases hdocT : truthyOptStr docId <;>
        simp [addTagBody, hpt, hposT, hdocT, getKey_cons_self, getKey_cons_ne, getKey_nil, List.cons_append, List.nil_append, List.append_nil]
    · cases hposT : truthyOptStr pos <;> cases hdocT : truthyOptStr docId <;>
        simp [addTagBody, hpt, hposT, hdocT, getKey_cons_self, getKey_cons_ne, getKey_nil, List.cons_append, List.nil_append, List.append_nil]
    · cases hposT : truthyOptStr pos <;> cases hdocT : truthyOptStr docId <;>
        simp [addTagBody, hpt, hposT, hdocT, getKey_cons_self, getKey_cons_ne, getKey_nil, List.cons_append, List.nil_append, List.append_nil]
    · rintro q rfl hq
      have hqt : truthyOptStr (some q) = true := by simp [truthyOptStr, hq]
      simp [addTagBody, hpt, hqt, getKey_cons_self, getKey_cons_ne, getKey_nil, List.cons_append, List.nil_append, List.append_nil]
    · rintro doc rfl hdoc
      have hdt : truthyOptStr (some doc) = true := by simp [truthyOptStr, hdoc]
      cases hposT : truthyOptStr pos <;>
        simp [addTagBody, hpt, hdt, hposT, getKey_cons_self, getKey_cons_ne, getKey_nil, List.cons_append, List.nil_append, List.append_nil]
  · rintro rfl q x y rfl rfl rfl
    refine ⟨?_, ?_, ?_, ?_, ?_, ?_⟩ <;>
      simp [addTagBody, truthyOptStr, numField, getKey_cons_self, getKey_cons_ne, getKey_nil, List.cons_append, List.nil_append, List.append_nil]
  · rintro rfl
    cases hplT : truthyOptStr pl <;>
      simp [addTagBody, jsOrElse, hplT, getKey_cons_self, getKey_cons_ne, getKey_nil, List.cons_append, List.nil_append, List.append_nil]

/-- Witness for C3 at a concrete placeholder-mode call. -/
theorem C3_addTag_mode_selection_witness :
    getKey (addTagBody "E" ⟨some "D", "R", none, some "{sig}", none, none, none, none⟩)
        "placeholder" = some (.str "{sig}")
    ∧ getKey (addTagBody "E" ⟨some "D", "R", none, some "{sig}", none, none, none, none⟩)
        "page" = none :=
  ⟨((C3_addTag_mode_selection "E" "{sig}"
      ⟨some "D", "R", none, some "{sig}", none, none, none, none⟩).1
        rfl (by decide) rfl rfl rfl).1,
   ((C3_addTag_mode_selection "E" "{sig}"
      ⟨some "D", "R", none, some "{sig}", none, none, none, none⟩).1
        rfl (by decide) rfl rfl rfl).2.1⟩

/-- C4: an `addTag` input that supplies fields of both positioning modes at
once is not rejected: the request is exactly the one that would be built
with the coordinate fields removed, the body carries `placeholder`, and the
keys `page`, `xPosition`, `yPosition` are silently absent from it. -/
theorem C4_addTag_both_modes (envId ph : String) (p : AddTagParams)
    (hp : p.placeholder = some ph) (hph : ph ≠ "")
    (hc : p.page ≠ none ∨ p.xPosition ≠ none ∨ p.yPosition ≠ none) :
    addTag envId p
      = addTag envId { p with page := none, xPosition := none, yPosition := none }
    ∧ getKey (addTagBody envId p) "placeholder" = some (.str ph)
    ∧ getKey (addTagBody envId p) "page" = none
    ∧ getKey (addTagBody envId p) "xPosition" = none
    ∧ getKey (addTagBody envId p) "yPosition" = none := by
  obtain ⟨docId, rId, ty, pl, pg, px, py, pos⟩ := p
  cases hp
  have hpt : truthyOptStr (some ph) = true := by simp [truthyOptStr, hph]
  refine ⟨?_, ?_, ?_, ?_, ?_⟩
  · simp [addTag, addTagBody, hpt]
  · simp [addTagBody, hpt, getKey_cons_self, getKey_cons_ne, getKey_nil, List.cons_append, List.nil_append, List.append_nil]
  · cases hposT : truthyOptStr pos <;> cases hdocT : truthyOptStr docId <;>
      simp [addTagBody, hpt, hposT, hdocT, getKey_cons_self, getKey_cons_ne, getKey_nil, List.cons_append, List.nil_append, List.append_nil]
  · cases hposT : truthyOptStr pos <;> cases hdocT : truthyOptStr docId <;>
      simp [addTagBody, hpt, hposT, hdocT, getKey_cons_self, getKey_cons_ne, getKey_nil, List.cons_append, List.nil_append, List.append_nil]
  · cases hposT : truthyOptStr pos <;> cases hdocT : truthyOptStr docId <;>
      simp [addTagBody, hpt, hposT, hdocT, getKey_cons_self, getKey_cons_ne, getKey_nil, List.cons_append, List.nil_append, List.append_nil]

/-- Witness for C4: placeholder plus coordinates yields the same request as
placeholder alone. -/
theorem C4_addTag_both_modes_witness :
    addTag "E" ⟨some "D", "R", none, some "{sig}", some 3, some 10, some 20, none⟩
      = addTag "E" ⟨some "D", "R", none, some "{sig}", none, none, none, none⟩
    ∧ getKey (addTagBody "E" ⟨some "D", "R", none, some "{sig}", some 3, some 10, some 20, none⟩)
        "page" = none := by
  have h := C4_addTag_both_modes "E" "{sig}"
    ⟨some "D", "R", none, some "{sig}", some 3, some 10, some 20, none⟩
    rfl (by decide) (Or.inl (by decide))
  exact ⟨h.1, h.2.2.1⟩

/-- C5 counterexample: `listEnvelopes` with `page = 0` — a filter that is
present in the input — produces no query string at all, because the source
tests truthiness (`if (params.page)`) rather than presence, so presence does
not decide inclusion as the claim states. -/
theorem C5_counterexample :
    ({ status := none, page := some 0, itemsPerPage := none } : ListEnvelopesParams).page ≠ none
    ∧ listEnvelopesQuery { status := none, page := some 0, itemsPerPage := none } = []
    ∧ (listEnvelopes { status := none, page := some 0, itemsPerPage := none }).path
        = "/api/envelopes" := by
  refine ⟨by decide, by decide, by decide⟩

/-- C5 amended: a filter key appears in the `listEnvelopes` query exactly when
its value is present and truthy (non-empty `status`, non-zero `page` or
`itemsPerPage`) — a present falsy value is dropped exactly like an absent
one — and no other key ever appears; `listEnvelopes({})` produces a request
path with no query string, and `listEnvelopes({status: "sent"})` produces
exactly `?status=sent`. -/
theorem C5_listEnvelopes_truthy_filters (p : ListEnvelopesParams) :
    (("status" ∈ (listEnvelopesQuery p).map Prod.fst) ↔ truthyOptStr p.status = true)
  ∧ (("page" ∈ (listEnvelopesQuery p).map Prod.fst) ↔ truthyOptNum p.page = true)
  ∧ (("itemsPerPage" ∈ (listEnvelopesQuery p).map Prod.fst)
        ↔ truthyOptNum p.itemsPerPage = true)
  ∧ (∀ k, k ∈ (listEnvelopesQuery p).map Prod.fst →
        k = "status" ∨ k = "page" ∨ k = "itemsPerPage")
  ∧ (listEnvelopes { status := none, page := none, itemsPerPage := none }).path
      = "/api/envelopes"
  ∧ (listEnvelopes { status := some "sent", page := none, itemsPerPage := none }).path
      = "/api/envelopes?status=sent" := by
  refine ⟨?_, ?_, ?_, ?_, by decide, by decide⟩ <;>
  · cases hs : truthyOptStr p.status <;> cases hpg : truthyOptNum p.page <;>
      cases hi : truthyOptNum p.itemsPerPage <;>
      simp [listEnvelopesQuery, hs, hpg, hi]

/-- Witness for C5 amended: with status supplied as "sent" and page supplied
as 0, the status key is in the query and the only-known-keys clause holds. -/
theorem C5_listEnvelopes_truthy_filters_witness :
    ("status" ∈ (listEnvelopesQuery ⟨some "sent", some 0, none⟩).map Prod.fst)
    ∧ ("status" = "status" ∨ "status" = "page" ∨ "status" = "itemsPerPage") :=
  ⟨((C5_listEnvelopes_truthy_filters ⟨some "sent", some 0, none⟩).1).mpr (by decide),
   (C5_listEnvelopes_truthy_filters ⟨some "sent", some 0, none⟩).2.2.2.1 "status" (by decide)⟩

/-- C6: `createEnvelope` omits each optional field from the request body when
it is not supplied, rather than sending null: the body of
`createEnvelope({name: "X"})` is exactly `{name: "X"}`, and `addRecipient`
likewise omits `mobile` when it is not supplied. -/
theorem C6_optional_field_omission (p : CreateEnvelopeParams) (r : AddRecipientParams) :
    (p.emailBody = none → getKey (createEnvelopeBody p) "emailBody" = none)
  ∧ (p.emailBodyCompleted = none → getKey (createEnvelopeBody p) "emailBodyCompleted" = none)
  ∧ (p.senderName = none → getKey (createEnvelopeBody p) "senderName" = none)
  ∧ (p.senderEmail = none → getKey (createEnvelopeBody p) "senderEmail" = none)
  ∧ (createEnvelope ⟨"X", none, none, none, none⟩).body = some [("name", .str "X")]
  ∧ (r.mobile = none → getKey (addRecipientBody r) "mobile" = none) := by
  obtain ⟨nm, eb, ebc, sn, se⟩ := p
  obtain ⟨ro, rn, re, mo⟩ := r
  refine ⟨?_, ?_, ?_, ?_, by decide, ?_⟩
  · rintro rfl
    cases h1 : truthyOptStr ebc <;> cases h2 : truthyOptStr sn <;> cases h3 : truthyOptStr se <;>
      simp [createEnvelopeBody, truthyOptStr_none, h1, h2, h3, getKey_cons_self, getKey_cons_ne,
        getKey_nil, List.cons_append, List.nil_append, List.append_nil]
  · rintro rfl
    cases h1 : truthyOptStr eb <;> cases h2 : truthyOptStr sn <;> cases h3 : truthyOptStr se <;>
      simp [createEnvelopeBody, truthyOptStr_none, h1, h2, h3, getKey_cons_self, getKey_cons_ne,
        getKey_nil, List.cons_append, List.nil_append, List.append_nil]
  · rintro rfl
    cases h1 : truthyOptStr eb <;> cases h2 : truthyOptStr ebc <;> cases h3 : truthyOptStr se <;>
      simp [createEnvelopeBody, truthyOptStr_none, h1, h2, h3, getKey_cons_self, getKey_cons_ne,
        getKey_nil, List.cons_append, List.nil_append, List.append_nil]
  · rintro rfl
    cases h1 : truthyOptStr eb <;> cases h2 : truthyOptStr ebc <;> cases h3 : truthyOptStr sn <;>
      simp [createEnvelopeBody, truthyOptStr_none, h1, h2, h3, getKey_cons_self, getKey_cons_ne,
        getKey_nil, List.cons_append, List.nil_append, List.append_nil]
  · rintro rfl
    simp [addRecipientBody, truthyOptStr_none, getKey_cons_self, getKey_cons_ne,
      getKey_nil, List.cons_append, List.nil_append, List.append_nil]

/-- Witness for C6: createEnvelope with no optional fields and addRecipient
with no mobile omit the optional keys. -/
theorem C6_optional_field_omission_witness :
    getKey (createEnvelopeBody ⟨"X", none, none, none, none⟩) "emailBody" = none
    ∧ getKey (addRecipientBody ⟨"signer", "N", "n@x.cz", none⟩) "mobile" = none :=
  ⟨(C6_optional_field_omission ⟨"X", none, none, none, none⟩
      ⟨"signer", "N", "n@x.cz", none⟩).1 rfl,
   (C6_optional_field_omission ⟨"X", none, none, none, none⟩
      ⟨"signer", "N", "n@x.cz", none⟩).2.2.2.2.2 rfl⟩

/-- C8: `getDownloadUrl` and `downloadEnvelope` default `output` to
"combined" exactly when the option is absent, and carry a supplied value
verbatim in the request path. -/
theorem C8_download_output_default (envelopeId v : String) (il : Option Bool) :
    (getDownloadUrl envelopeId { output := none }).path
        = "/api/envelopes/" ++ (envelopeId ++ "/download-url?output=combined")
  ∧ (getDownloadUrl envelopeId { output := some v }).path
        = "/api/envelopes/" ++ (envelopeId ++ ("/download-url?output=" ++ v))
  ∧ (downloadEnvelope envelopeId { output := none, includeLog := il }).path
        = "/api/envelopes/" ++ (envelopeId
            ++ ("/download?output=combined&include_log=" ++ toString (il.getD true)))
  ∧ (downloadEnvelope envelopeId { output := some v, includeLog := il }).path
        = "/api/envelopes/" ++ (envelopeId
            ++ ("/download?output=" ++ (v ++ ("&include_log=" ++ toString (il.getD true))))) := by
  exact ⟨rfl, rfl, rfl, rfl⟩

/-- C7 counterexample: a 500 response whose body "oops" is not valid JSON
makes `res.json()` reject, so `apiCall` propagates the JSON parse failure
instead of an API error carrying the status and the raw body, contrary to
the claim. -/
theorem C7_counterexample :
    apiCall ⟨500, "text/html", [], "oops", none⟩ = .jsonRejected
    ∧ apiCall ⟨500, "text/html", [], "oops", none⟩ ≠ .apiError 500 (.str "oops") := by
  decide

/-- C7 amended: for a non-binary, non-204, non-2xx response, `apiCall` never
returns a success value: when the body parses as JSON it fails with the API
error carrying the status code and the parsed body; when the body is not
valid JSON it fails with the propagated JSON parse rejection, which carries
neither the status nor the raw body. -/
theorem C7_apiCall_error_propagation (res : HttpResponse)
    (hbin : isBinaryContentType res.contentType = false)
    (h204 : res.status ≠ 204) (hok : httpOk res.status = false) :
    (∀ d, res.jsonBody = some d → apiCall res = .apiError res.status d)
    ∧ (res.jsonBody = none → apiCall res = .jsonRejected)
    ∧ isSuccessResult (apiCall res) = false := by
  have hcore : apiCall res
      = match res.jsonBody with
        | none => .jsonRejected
        | some data => if httpOk res.status then .json data
                       else .apiError res.status data := by
    rw [apiCall, if_neg (by simp [hbin]), if_neg (by simp [h204])]
  refine ⟨?_, ?_, ?_⟩
  · intro d hjson
    rw [hcore, hjson]
    simp [hok]
  · intro hjson
    rw [hcore, hjson]
  · rw [hcore]
    cases hjson : res.jsonBody with
    | none => simp [isSuccessResult]
    | some d => simp [hok, isSuccessResult]

/-- Witness for C7 amended: a 500 response with a JSON body fails with the
API error carrying status and parsed body, and is not a success. -/
theorem C7_apiCall_error_propagation_witness :
    apiCall ⟨500, "application/json", [], "", some (.str "violation")⟩
      = .apiError 500 (.str "violation")
    ∧ isSuccessResult (apiCall ⟨500, "application/json", [], "", some (.str "violation")⟩)
      = false :=
  ⟨(C7_apiCall_error_propagation ⟨500, "application/json", [], "", some (.str "violation")⟩
      rfl (by decide) rfl).1 (.str "violation") rfl,
   (C7_apiCall_error_propagation ⟨500, "application/json", [], "", some (.str "violation")⟩
      rfl (by decide) rfl).2.2⟩
